import Mathlib

/-!
Verification development for the YouTube transcript fetcher
(`src/transcripts.py`).  The Python source is shallowly embedded:

* `extract_video_id` (the spec's Identifier Resolver) is modelled over a
  model of Python's `urllib.parse.urlparse` / `parse_qs` restricted to the
  behaviour the source exercises;
* `fetch_transcript` (the spec's Transcript Retriever) is modelled with the
  external `youtube_transcript_api` collaborator abstracted as a `Service`
  record of outcomes, exceptions becoming constructors of outcome types;
* `save_transcript_to_json` is modelled with the filesystem write abstracted
  as a fallible function, a raised exception becoming `Except.error`.
-/

/-- Result of Python `urlparse` restricted to the three attributes the source
reads: `hostname`, `path` and `query`. -/
structure ParsedUrl where
  hostname : Option String
  path : String
  query : String
deriving DecidableEq, Repr

/-- Characters allowed in a URL scheme after the initial letter
(`scheme_chars` in `urllib.parse`): letters, digits, `+`, `-`, `.`. -/
def isSchemeChar (c : Char) : Bool :=
  c.isAlphanum || c = '+' || c = '-' || c = '.'

/-- Model of the scheme-splitting step of `urlparse`: when the text up to the
first `:` is a non-empty valid scheme starting with a letter, the remainder
after the `:` is returned; otherwise the input is returned unchanged. -/
def schemeSplit (l : List Char) : List Char :=
  let pre := l.takeWhile fun c => c != ':'
  if pre.length < l.length ∧ pre ≠ [] ∧ pre.headI.isAlpha = true ∧ pre.all isSchemeChar = true
  then l.drop (pre.length + 1)
  else l

/-- Model of the params-splitting step of `urlparse` (`_splitparams`): a `;`
in the last path segment starts the params, which are dropped from `path`. -/
def dropParams (l : List Char) : List Char :=
  if '/' ∈ l then
    let lastSeg := (l.reverse.takeWhile fun c => c != '/').reverse
    l.take (l.length - lastSeg.length) ++ lastSeg.takeWhile fun c => c != ';'
  else
    l.takeWhile fun c => c != ';'

/-- Model of the `hostname` attribute of a parse result: the netloc after the
last `@`, before the first `:`, lower-cased; `none` when empty. -/
def hostnameOfNetloc (netloc : List Char) : Option String :=
  let afterAt := (netloc.reverse.takeWhile fun c => c != '@').reverse
  let host := afterAt.takeWhile fun c => c != ':'
  if host = [] then none else some (String.mk (host.map Char.toLower))

/-- Path and query of the part of the URL after the netloc: the fragment
(after `#`) is removed first, then the query is what follows the first `?`,
and the path is what precedes it, with params dropped. -/
def urlPathQuery (l : List Char) : String × String :=
  let beforeFrag := l.takeWhile fun c => c != '#'
  let path0 := beforeFrag.takeWhile fun c => c != '?'
  (String.mk (dropParams path0), String.mk (beforeFrag.drop (path0.length + 1)))

/-- Model of Python `urllib.parse.urlparse` restricted to `hostname`, `path`
and `query`: split off the scheme, read a netloc when the remainder starts
with `//`, then split fragment, query and params. -/
def pyUrlparse (s : String) : ParsedUrl :=
  let l := schemeSplit s.data
  if l.take 2 = ['/', '/'] then
    let t := l.drop 2
    let netloc := t.takeWhile fun c => !(c = '/' || c = '?' || c = '#')
    let pq := urlPathQuery (t.drop netloc.length)
    { hostname := hostnameOfNetloc netloc, path := pq.1, query := pq.2 }
  else
    let pq := urlPathQuery l
    { hostname := none, path := pq.1, query := pq.2 }

/-- Hexadecimal value of a character, for percent-decoding. -/
def hexVal (c : Char) : Option Nat :=
  if '0' ≤ c ∧ c ≤ '9' then some (c.toNat - '0'.toNat)
  else if 'a' ≤ c ∧ c ≤ 'f' then some (c.toNat - 'a'.toNat + 10)
  else if 'A' ≤ c ∧ c ≤ 'F' then some (c.toNat - 'A'.toNat + 10)
  else none

/-- Percent-decoding core of Python `urllib.parse.unquote`: `%xy` with two
hex digits becomes the character with that code; otherwise `%` is kept. -/
def pyUnquoteCore : List Char → List Char
  | [] => []
  | '%' :: a :: b :: rest =>
    match hexVal a, hexVal b with
    | some x, some y => Char.ofNat (16 * x + y) :: pyUnquoteCore rest
    | _, _ => '%' :: pyUnquoteCore (a :: b :: rest)
  | c :: rest => c :: pyUnquoteCore rest

/-- Model of Python `urllib.parse.unquote_plus`: `+` becomes a space, then
percent-escapes are decoded. -/
def pyUnquotePlus (s : String) : String :=
  String.mk (pyUnquoteCore (s.data.map fun c => if c = '+' then ' ' else c))

/-- Splitting a character list at every occurrence of a separator, the model
of Python `str.split` with a one-character separator (empty parts kept). -/
def splitOnChar (sep : Char) : List Char → List (List Char)
  | [] => [[]]
  | c :: rest =>
    let r := splitOnChar sep rest
    if c = sep then [] :: r
    else (c :: r.headI) :: r.tail

/-- Model of Python `urllib.parse.parse_qsl` with default options: split the
query on `&`; skip empty parts, parts without `=` and parts with an empty
value; unquote names and values. -/
def pyParseQsl (query : List Char) : List (String × String) :=
  (splitOnChar '&' query).filterMap fun part =>
    if part = [] then none
    else
      let k := part.takeWhile fun c => c != '='
      if k.length = part.length then none
      else
        let v := part.drop (k.length + 1)
        if v = [] then none
        else some (pyUnquotePlus (String.mk k), pyUnquotePlus (String.mk v))

/-- The source's `parse_qs(parsed_url.query).get('v', [None])[0]`: the first
value bound to the key `v` in the parsed query string, if any. -/
def queryParamV (query : String) : Option String :=
  ((pyParseQsl query.data).find? fun kv => kv.1 = "v").map fun kv => kv.2

/-- Model of Python `str.isalnum`: non-empty and every character
alphanumeric. -/
def pyStrIsAlnum (s : String) : Bool :=
  !s.data.isEmpty && s.data.all Char.isAlphanum

/-- Model of Python `path.lstrip('/')`: drop every leading `/`. -/
def pyLstripSlash (p : String) : String :=
  String.mk (p.data.dropWhile fun c => c = '/')

/-- Embedding of `extract_video_id` from `src/transcripts.py`, generalised
over the URL parser so that independence from URL parsing can be stated.
Branches, in source order: the 11-alphanumeric shortcut; the watch hosts
(`www.youtube.com` / `youtube.com`) reading the `v` query parameter; the
short-link host `youtu.be` reading the path without leading slashes; the
embed branch reading the third `/`-separated path component (`none` models
the IndexError caught by the source's `except`); otherwise `none`. -/
def extract_video_id_gen (parse : String → ParsedUrl) (s : String) : Option String :=
  if s.length = 11 ∧ pyStrIsAlnum s = true then some s
  else if (parse s).hostname = some "www.youtube.com" ∨ (parse s).hostname = some "youtube.com" then
    queryParamV (parse s).query
  else if (parse s).hostname = some "youtu.be" then
    some (pyLstripSlash (parse s).path)
  else if (parse s).hostname = some "www.youtube.com" ∧ ("/embed/".data).isPrefixOf (parse s).path.data = true then
    ((splitOnChar '/' (parse s).path.data).get? 2).map String.mk
  else none

/-- Embedding of `extract_video_id` from `src/transcripts.py`, with the
concrete `urlparse` model. -/
def extract_video_id (s : String) : Option String :=
  extract_video_id_gen pyUrlparse s

/-- The Resolver with the unreachable embed branch removed, for the
refinement comparison of the spec's open question. -/
def extract_video_id_noembed_gen (parse : String → ParsedUrl) (s : String) : Option String :=
  if s.length = 11 ∧ pyStrIsAlnum s = true then some s
  else if (parse s).hostname = some "www.youtube.com" ∨ (parse s).hostname = some "youtube.com" then
    queryParamV (parse s).query
  else if (parse s).hostname = some "youtu.be" then
    some (pyLstripSlash (parse s).path)
  else none

/-- Model of Python `sep.join(list)`: the parts concatenated with the
separator between consecutive parts. -/
def pyJoin (sep : String) : List String → String
  | [] => ""
  | [x] => x
  | x :: xs => x ++ sep ++ pyJoin sep xs

/-- A transcript segment as returned by the external service. The source
reads only the `text` field of each segment dict; the unused numeric
`start` and `duration` fields are omitted. -/
structure Segment where
  text : String
deriving DecidableEq, Repr

/-- Outcome of a fetch from the external transcript service
(`get_transcript` or a descriptor's `fetch`): the segment list on success,
or one of the distinguishable exceptions, each carrying its `str(e)`. -/
inductive GetTranscriptResult where
  | ok (segments : List Segment)
  | noTranscriptFound (msg : String)
  | transcriptsDisabled (msg : String)
  | otherError (msg : String)
deriving DecidableEq, Repr

/-- A transcript descriptor from the service's enumeration: a human-readable
language name, a language code, and the outcome its `fetch()` would have. -/
structure TranscriptInfo where
  language : String
  language_code : String
  fetchResult : GetTranscriptResult
deriving DecidableEq, Repr

/-- Outcome of the service's `list_transcripts`: the enumerated descriptors,
or one of the exceptions, each carrying its `str(e)`. -/
inductive ListTranscriptsResult where
  | ok (transcripts : List TranscriptInfo)
  | transcriptsDisabled (msg : String)
  | otherError (msg : String)
deriving DecidableEq, Repr

/-- The external `youtube_transcript_api` collaborator, abstracted as the
outcomes of its two entry points per video identifier.  `get_transcript` is
always called by the source with `languages=['en']`, so only that outcome is
recorded. -/
structure Service where
  get_transcript : String → GetTranscriptResult
  list_transcripts : String → ListTranscriptsResult

/-- Model of the external library's `TranscriptList.find_transcript`: try the
requested language codes in order and return the first listed transcript
whose code matches; `none` models the `NoTranscriptFound` it raises
otherwise.  The source requests every listed code, in listing order. -/
def find_transcript (transcripts : List TranscriptInfo) (codes : List String) : Option TranscriptInfo :=
  codes.findSome? fun c => transcripts.find? fun t => t.language_code == c

/-- Model of the `str(e)` of the `NoTranscriptFound` the external library
raises when `find_transcript` matches no requested code. -/
def noTranscriptFoundStr (video_id : String) : String :=
  "No transcripts were found for any of the requested language codes for video " ++ video_id

/-- The result dict of `fetch_transcript` / input dict of
`save_transcript_to_json`: each possible key of the Python dict becomes an
optional field, `none` meaning the key is absent. -/
structure ResultRecord where
  video_id : Option String := none
  language : Option String := none
  transcript : Option String := none
  url : Option String := none
  date_fetched : Option String := none
  error : Option String := none
deriving DecidableEq, Repr

/-- The dict returned when the input cannot be resolved to a video id. -/
def invalidInputRecord : ResultRecord :=
  { error := some "Invalid YouTube URL or video ID." }

/-- Embedding of `fetch_transcript` from `src/transcripts.py`.  The
`datetime.now().isoformat()` timestamp is the `now` parameter; the external
service is the `svc` parameter; Python exception handling becomes matching
on the outcome constructors, each `except` branch building the dict the
source builds (with `str(e)` interpolated into the formatted messages). -/
def fetch_transcript (svc : Service) (now : String) (input_string : String) : ResultRecord :=
  match extract_video_id input_string with
  | none => invalidInputRecord
  | some video_id =>
    if video_id = "" then invalidInputRecord
    else
      match svc.get_transcript video_id with
      | .ok transcript =>
        { video_id := some video_id
          language := some "en"
          transcript := some (pyJoin "\n" (transcript.map Segment.text))
          url := some ("https://www.youtube.com/watch?v=" ++ video_id)
          date_fetched := some now }
      | .noTranscriptFound _ =>
        match svc.list_transcripts video_id with
        | .ok transcript_list =>
          match find_transcript transcript_list (transcript_list.map TranscriptInfo.language_code) with
          | some fallback_transcript =>
            match fallback_transcript.fetchResult with
            | .ok segments =>
              { video_id := some video_id
                language := some fallback_transcript.language
                transcript := some (pyJoin "\n" (segments.map Segment.text))
                url := some ("https://www.youtube.com/watch?v=" ++ video_id)
                date_fetched := some now }
            | .transcriptsDisabled _ =>
              { error := some "Transcripts are disabled for this video.", video_id := some video_id }
            | .noTranscriptFound m =>
              { error := some ("Error fetching alternative transcript: " ++ m), video_id := some video_id }
            | .otherError m =>
              { error := some ("Error fetching alternative transcript: " ++ m), video_id := some video_id }
          | none =>
            { error := some ("Error fetching alternative transcript: " ++ noTranscriptFoundStr video_id)
              video_id := some video_id }
        | .transcriptsDisabled _ =>
          { error := some "Transcripts are disabled for this video.", video_id := some video_id }
        | .otherError m =>
          { error := some ("Error fetching alternative transcript: " ++ m), video_id := some video_id }
      | .transcriptsDisabled m =>
        { error := some ("Error fetching transcript: " ++ m), video_id := some video_id }
      | .otherError m =>
        { error := some ("Error fetching transcript: " ++ m), video_id := some video_id }

/-- The module-level output directory of the source. -/
def TRANSCRIPTS_FOLDER : String := "Transcripts"

/-- Model of posix `os.path.join` for two components: an absolute second
component replaces the first; otherwise the components are joined with a
`/` unless the first is empty or already ends in one. -/
def os_path_join (a b : String) : String :=
  if b.data.head? = some '/' then b
  else if a = "" ∨ a.data.getLast? = some '/' then a ++ b
  else a ++ "/" ++ b

/-- The filename `save_transcript_to_json` builds:
`os.path.join(TRANSCRIPTS_FOLDER, f"{video_id}.json")` with `video_id` the
record's field, defaulted to `"unknown"`. -/
def saveFilename (data : ResultRecord) : String :=
  os_path_join TRANSCRIPTS_FOLDER (data.video_id.getD "unknown" ++ ".json")

/-- Embedding of `save_transcript_to_json` from `src/transcripts.py`.  The
filesystem write is the `write` parameter, `Except.error` modelling a raised
exception; the source's `try`/`except` turns a failure into a logged message
(the returned list) and never re-raises, so the result is `Except.ok` with
the log lines. -/
def save_transcript_to_json (write : String → Except String Unit) (data : ResultRecord) :
    Except String (List String) :=
  match write (saveFilename data) with
  | .ok _ => .ok []
  | .error e => .ok ["Error saving transcript to file: " ++ e]

/-- A service whose English fetch succeeds with two segments. -/
def svcEnOk : Service :=
  { get_transcript := fun _ => .ok [{ text := "hello" }, { text := "world" }]
    list_transcripts := fun _ => .otherError "unreachable" }

/-- A service that raises `TranscriptsDisabled` already on the initial
preferred-language fetch. -/
def svcDisabledAtGet : Service :=
  { get_transcript := fun _ => .transcriptsDisabled "Subtitles are disabled for this video"
    list_transcripts := fun _ => .otherError "unreachable" }

/-- A service that raises `NoTranscriptFound` for English and
`TranscriptsDisabled` on enumeration. -/
def svcDisabledAtList : Service :=
  { get_transcript := fun _ => .noTranscriptFound "no English transcript"
    list_transcripts := fun _ => .transcriptsDisabled "Subtitles are disabled for this video" }

/-- A service that raises `NoTranscriptFound` for English and enumerates a
single retrievable German transcript. -/
def svcGermanFallback : Service :=
  { get_transcript := fun _ => .noTranscriptFound "no English transcript"
    list_transcripts := fun _ =>
      .ok [{ language := "German", language_code := "de", fetchResult := .ok [{ text := "hallo" }] }] }

/-- A record whose video identifier begins with a path separator. -/
def escapingRecord : ResultRecord :=
  { video_id := some "/x", error := some "boom" }

/-- A record with no video identifier. -/
def unknownRecord : ResultRecord :=
  { error := some "boom" }

/-- A record with an ordinary video identifier. -/
def abcRecord : ResultRecord :=
  { video_id := some "abc", error := some "boom" }

/-- A filesystem write that always fails. -/
def failingWrite : String → Except String Unit :=
  fun _ => Except.error "Permission denied"

/-- Splitting off the scheme only removes characters. -/
theorem schemeSplit_subset (l : List Char) : schemeSplit l ⊆ l := by
  simp only [schemeSplit]
  split_ifs with h
  · exact List.drop_subset _ _
  · exact fun x hx => hx

/-- A parse result can only carry a hostname when the input contains a
slash: the netloc exists only after a leading `//` in the post-scheme
remainder. -/
theorem hostname_isSome_slash_mem (s : String)
    (h : (pyUrlparse s).hostname.isSome = true) : '/' ∈ s.data := by
  by_cases h2 : (schemeSplit s.data).take 2 = ['/', '/']
  · have hm : '/' ∈ (schemeSplit s.data).take 2 := by
      rw [h2]; exact List.mem_cons_self _ _
    exact schemeSplit_subset s.data (List.take_subset _ _ hm)
  · exfalso
    simp only [pyUrlparse] at h
    rw [if_neg h2] at h
    simp at h

/-- A string whose parse carries a hostname cannot be an 11-character
alphanumeric string, since it contains a slash. -/
theorem hostname_isSome_not_alnum (s : String)
    (h : (pyUrlparse s).hostname.isSome = true) :
    ¬(s.length = 11 ∧ pyStrIsAlnum s = true) := by
  rintro ⟨-, halnum⟩
  have hm := hostname_isSome_slash_mem s h
  have hall : s.data.all Char.isAlphanum = true := by
    simp only [pyStrIsAlnum, Bool.and_eq_true] at halnum
    exact halnum.2
  have hslash := List.all_eq_true.mp hall '/' hm
  simp at hslash

/-- A joined string is at least as long as any of its parts. -/
theorem length_le_pyJoin (sep : String) :
    ∀ (l : List String) (a : String), a ∈ l → a.length ≤ (pyJoin sep l).length
  | [], a, h => absurd h (List.not_mem_nil a)
  | [x], a, h => by
    rw [List.mem_singleton] at h
    subst h
    simp [pyJoin]
  | x :: y :: xs, a, h => by
    rcases List.mem_cons.mp h with rfl | h2
    · show a.length ≤ (a ++ sep ++ pyJoin sep (y :: xs)).length
      simp [String.length_append]
      omega
    · have ih := length_le_pyJoin sep (y :: xs) a h2
      show a.length ≤ (x ++ sep ++ pyJoin sep (y :: xs)).length
      simp [String.length_append]
      omega

/-- A joined string is non-empty as soon as one of its parts is. -/
theorem pyJoin_ne_empty (sep : String) (l : List String) (a : String)
    (ha : a ∈ l) (hne : a ≠ "") : pyJoin sep l ≠ "" := by
  intro h
  have h1 := length_le_pyJoin sep l a ha
  rw [h] at h1
  have h0 : a.length = 0 := by simpa using h1
  apply hne
  cases a with
  | mk data =>
    simp [String.length] at h0
    simp [h0]

example : extract_video_id "dQw4w9WgXcQ" = some "dQw4w9WgXcQ" := by decide
example : extract_video_id "https://www.youtube.com/watch?v=dQw4w9WgXcQ" = some "dQw4w9WgXcQ" := by decide
example : extract_video_id "https://youtu.be/dQw4w9WgXcQ" = some "dQw4w9WgXcQ" := by decide
example : extract_video_id "https://vimeo.com/123" = none := by decide
example : extract_video_id "not a url" = none := by decide
example : extract_video_id "https://youtu.be/" = some "" := by decide
example : extract_video_id "https://youtu.be/abc" = some "abc" := by decide
example : extract_video_id "https://www.youtube.com/embed/dQw4w9WgXcQ" = none := by decide

/-- C1: for every input string, `fetch_transcript` returns exactly one
result record, which carries a `transcript` field (success) or an `error`
field (failure), never both and never neither. -/
theorem fetch_result_transcript_xor_error (svc : Service) (now input_string : String) :
    ((fetch_transcript svc now input_string).transcript.isSome = true ∧
      (fetch_transcript svc now input_string).error = none) ∨
    ((fetch_transcript svc now input_string).transcript = none ∧
      (fetch_transcript svc now input_string).error.isSome = true) := by
  unfold fetch_transcript invalidInputRecord
  repeat' split
  all_goals simp

/-- C5: when the input resolves to a non-empty identifier and the English
fetch succeeds, `fetch_transcript` returns the success record with language
`en`, the newline-joined segment texts, the canonical watch URL built from
the identifier, and the current timestamp. -/
theorem english_success_record_fields (svc : Service) (now input_string video_id : String)
    (segments : List Segment)
    (hres : extract_video_id input_string = some video_id)
    (hne : video_id ≠ "")
    (hok : svc.get_transcript video_id = GetTranscriptResult.ok segments) :
    fetch_transcript svc now input_string =
      { video_id := some video_id
        language := some "en"
        transcript := some (pyJoin "\n" (segments.map Segment.text))
        url := some ("https://www.youtube.com/watch?v=" ++ video_id)
        date_fetched := some now
        error := none } := by
  unfold fetch_transcript
  rw [hres]
  simp only [hne, if_false, hok, reduceCtorEq]

/-- Witness for C5 at a concrete identifier and service. -/
theorem english_success_record_fields_witness :
    fetch_transcript svcEnOk "2026-01-01T00:00:00" "dQw4w9WgXcQ" =
      { video_id := some "dQw4w9WgXcQ"
        language := some "en"
        transcript := some (pyJoin "\n" (([{ text := "hello" }, { text := "world" }] : List Segment).map Segment.text))
        url := some ("https://www.youtube.com/watch?v=" ++ "dQw4w9WgXcQ")
        date_fetched := some "2026-01-01T00:00:00"
        error := none } :=
  english_success_record_fields svcEnOk "2026-01-01T00:00:00" "dQw4w9WgXcQ" "dQw4w9WgXcQ"
    [{ text := "hello" }, { text := "world" }] (by decide) (by decide) rfl

/-- C6: an input of exactly 11 alphanumeric characters is returned
unchanged by the Resolver, whatever the URL parser does. -/
theorem alnum11_returned_unchanged (parse : String → ParsedUrl) (s : String)
    (hlen : s.length = 11) (haln : pyStrIsAlnum s = true) :
    extract_video_id_gen parse s = some s := by
  unfold extract_video_id_gen
  rw [if_pos ⟨hlen, haln⟩]

/-- Witness for C6 at a concrete identifier. -/
theorem alnum11_returned_unchanged_witness :
    "dQw4w9WgXcQ".length = 11 ∧ pyStrIsAlnum "dQw4w9WgXcQ" = true ∧
    extract_video_id_gen pyUrlparse "dQw4w9WgXcQ" = some "dQw4w9WgXcQ" :=
  ⟨by decide, by decide, alnum11_returned_unchanged pyUrlparse "dQw4w9WgXcQ" (by decide) (by decide)⟩

/-- C7: when the Resolver returns `none`, `fetch_transcript` returns the
fixed invalid-input record (no identifier field), for every service — so the
service is never consulted. -/
theorem unresolved_input_invalid_record (svc : Service) (now input_string : String)
    (hres : extract_video_id input_string = none) :
    fetch_transcript svc now input_string = invalidInputRecord := by
  unfold fetch_transcript
  rw [hres]

/-- Witness for C7 at an unsupported host. -/
theorem unresolved_input_invalid_record_witness :
    extract_video_id "https://vimeo.com/123" = none ∧
    fetch_transcript svcEnOk "2026-01-01T00:00:00" "https://vimeo.com/123" = invalidInputRecord :=
  ⟨by decide, unresolved_input_invalid_record svcEnOk "2026-01-01T00:00:00" "https://vimeo.com/123" (by decide)⟩

/-- C10: when the Resolver returns the empty string, the falsiness guard of
`fetch_transcript` treats it like `none` and returns the fixed invalid-input
record, for every service — so the service is never consulted. -/
theorem empty_identifier_treated_invalid (svc : Service) (now input_string : String)
    (hres : extract_video_id input_string = some "") :
    fetch_transcript svc now input_string = invalidInputRecord := by
  unfold fetch_transcript
  rw [hres]
  simp

/-- Witness for C10 at a short-link URL whose path is only the separator. -/
theorem empty_identifier_treated_invalid_witness :
    extract_video_id "https://youtu.be/" = some "" ∧
    fetch_transcript svcEnOk "2026-01-01T00:00:00" "https://youtu.be/" = invalidInputRecord :=
  ⟨by decide, empty_identifier_treated_invalid svcEnOk "2026-01-01T00:00:00" "https://youtu.be/" (by decide)⟩

/-- C4: for every input whose parsed hostname is a standard watch-page host,
the Resolver returns the `v` query parameter lookup (which is `none` when
the parameter is absent), regardless of the URL path; and the Resolver is
extensionally equal to itself with the embed branch removed, for every URL
parser — the embed branch is dead code. -/
theorem watch_host_returns_v_param_and_embed_dead :
    (∀ s : String,
      ((pyUrlparse s).hostname = some "www.youtube.com" ∨
        (pyUrlparse s).hostname = some "youtube.com") →
      extract_video_id s = queryParamV (pyUrlparse s).query) ∧
    (∀ (parse : String → ParsedUrl) (s : String),
      extract_video_id_gen parse s = extract_video_id_noembed_gen parse s) := by
  constructor
  · intro s hhost
    have hnot : ¬(s.length = 11 ∧ pyStrIsAlnum s = true) := by
      apply hostname_isSome_not_alnum
      rcases hhost with h | h <;> simp [h]
    unfold extract_video_id extract_video_id_gen
    rw [if_neg hnot, if_pos hhost]
  · intro parse s
    unfold extract_video_id_gen extract_video_id_noembed_gen
    split_ifs with h1 h2 h3 h4
    · rfl
    · rfl
    · rfl
    · exact absurd (Or.inl h4.1) h2
    · rfl

/-- Witness for C4 at a concrete watch URL (and a concrete embed URL for the
equality part). -/
theorem watch_host_returns_v_param_and_embed_dead_witness :
    extract_video_id "https://www.youtube.com/watch?v=dQw4w9WgXcQ" =
      queryParamV (pyUrlparse "https://www.youtube.com/watch?v=dQw4w9WgXcQ").query ∧
    extract_video_id_gen pyUrlparse "https://www.youtube.com/embed/dQw4w9WgXcQ" =
      extract_video_id_noembed_gen pyUrlparse "https://www.youtube.com/embed/dQw4w9WgXcQ" :=
  ⟨watch_host_returns_v_param_and_embed_dead.1 "https://www.youtube.com/watch?v=dQw4w9WgXcQ"
      (Or.inl (by decide)),
    watch_host_returns_v_param_and_embed_dead.2 pyUrlparse "https://www.youtube.com/embed/dQw4w9WgXcQ"⟩

/-- Counterexample to C8 as stated: a short-link URL yields the non-null
identifier `abc`, which is not 11 characters long. -/
theorem url_branch_identifier_not_11_chars :
    extract_video_id "https://youtu.be/abc" = some "abc" ∧ "abc".length ≠ 11 := by decide

/-- C8 amended: a non-null Resolver result is canonical (the input itself,
11 alphanumeric characters) only when the raw-identifier branch fires;
otherwise the input went through URL parsing (it contains a slash) and the
extracted value is returned without any shape validation. -/
theorem identifier_shape_guarantee (s v : String)
    (h : extract_video_id s = some v) :
    (s.length = 11 ∧ pyStrIsAlnum s = true ∧ v = s) ∨ '/' ∈ s.data := by
  unfold extract_video_id extract_video_id_gen at h
  split_ifs at h with h1 h2 h3 h4
  · injection h with h5
    exact Or.inl ⟨h1.1, h1.2, h5.symm⟩
  · right
    apply hostname_isSome_slash_mem
    rcases h2 with hh | hh <;> simp [hh]
  · right
    apply hostname_isSome_slash_mem
    simp [h3]
  · right
    apply hostname_isSome_slash_mem
    simp [h4.1]

/-- Witness for C8 amended at a concrete raw identifier. -/
theorem identifier_shape_guarantee_witness :
    ("dQw4w9WgXcQ".length = 11 ∧ pyStrIsAlnum "dQw4w9WgXcQ" = true ∧
      "dQw4w9WgXcQ" = "dQw4w9WgXcQ") ∨ '/' ∈ "dQw4w9WgXcQ".data :=
  identifier_shape_guarantee "dQw4w9WgXcQ" "dQw4w9WgXcQ" (by decide)

/-- Counterexample to C2 as stated: when the disabled condition is raised by
the initial preferred-language fetch, the error record carries the generic
stringified message, not the fixed "transcripts disabled" message. -/
theorem disabled_at_initial_fetch_not_fixed_message :
    svcDisabledAtGet.get_transcript "dQw4w9WgXcQ" =
      GetTranscriptResult.transcriptsDisabled "Subtitles are disabled for this video" ∧
    (fetch_transcript svcDisabledAtGet "2026-01-01T00:00:00" "dQw4w9WgXcQ").error =
      some "Error fetching transcript: Subtitles are disabled for this video" ∧
    (fetch_transcript svcDisabledAtGet "2026-01-01T00:00:00" "dQw4w9WgXcQ").error ≠
      some "Transcripts are disabled for this video." := by decide

/-- C2 amended: for a resolvable input, a disabled condition raised during
the fallback enumeration yields the error record with the fixed
"transcripts disabled" message and the identifier; a disabled condition
raised by the initial preferred-language fetch instead yields an error
record with the identifier and the generic stringified message. Neither
record has a transcript field. -/
theorem disabled_condition_error_records (svc : Service) (now input_string video_id : String)
    (hres : extract_video_id input_string = some video_id)
    (hne : video_id ≠ "") :
    (∀ m0 m, svc.get_transcript video_id = GetTranscriptResult.noTranscriptFound m0 →
      svc.list_transcripts video_id = ListTranscriptsResult.transcriptsDisabled m →
      fetch_transcript svc now input_string =
        { error := some "Transcripts are disabled for this video.", video_id := some video_id }) ∧
    (∀ m, svc.get_transcript video_id = GetTranscriptResult.transcriptsDisabled m →
      fetch_transcript svc now input_string =
        { error := some ("Error fetching transcript: " ++ m), video_id := some video_id }) := by
  constructor
  · intro m0 m h1 h2
    unfold fetch_transcript
    rw [hres]
    simp only [hne, if_false, h1, h2, reduceCtorEq]
  · intro m h1
    unfold fetch_transcript
    rw [hres]
    simp only [hne, if_false, h1, reduceCtorEq]

/-- Witness for C2 amended: both disabled paths at concrete services. -/
theorem disabled_condition_error_records_witness :
    fetch_transcript svcDisabledAtList "2026-01-01T00:00:00" "dQw4w9WgXcQ" =
      { error := some "Transcripts are disabled for this video.", video_id := some "dQw4w9WgXcQ" } ∧
    fetch_transcript svcDisabledAtGet "2026-01-01T00:00:00" "dQw4w9WgXcQ" =
      { error := some ("Error fetching transcript: " ++ "Subtitles are disabled for this video")
        video_id := some "dQw4w9WgXcQ" } :=
  ⟨(disabled_condition_error_records svcDisabledAtList "2026-01-01T00:00:00" "dQw4w9WgXcQ"
        "dQw4w9WgXcQ" (by decide) (by decide)).1 "no English transcript"
      "Subtitles are disabled for this video" rfl rfl,
    (disabled_condition_error_records svcDisabledAtGet "2026-01-01T00:00:00" "dQw4w9WgXcQ"
        "dQw4w9WgXcQ" (by decide) (by decide)).2 "Subtitles are disabled for this video" rfl⟩

/-- Counterexample to C3 as stated: the code stores the fallback's
human-readable language name (`German`), not its language code (`de`), in
the `language` field. -/
theorem fallback_language_name_not_code :
    (fetch_transcript svcGermanFallback "2026-01-01T00:00:00" "dQw4w9WgXcQ").language =
      some "German" ∧
    (fetch_transcript svcGermanFallback "2026-01-01T00:00:00" "dQw4w9WgXcQ").transcript =
      some "hallo" ∧
    (fetch_transcript svcGermanFallback "2026-01-01T00:00:00" "dQw4w9WgXcQ").error = none ∧
    (fetch_transcript svcGermanFallback "2026-01-01T00:00:00" "dQw4w9WgXcQ").language ≠
      some "de" := by decide

/-- C3 amended: when English is not found but the enumeration yields a
retrievable transcript, `fetch_transcript` returns a success record (no
error field) whose `language` field is the fallback transcript's
human-readable language name (not its language code) and whose `transcript`
field is the newline-joined segment text, which is non-empty whenever some
segment text is non-empty. -/
theorem fallback_success_record_fields (svc : Service)
    (now input_string video_id m0 : String)
    (transcripts : List TranscriptInfo) (ft : TranscriptInfo) (segments : List Segment)
    (hres : extract_video_id input_string = some video_id)
    (hne : video_id ≠ "")
    (hnf : svc.get_transcript video_id = GetTranscriptResult.noTranscriptFound m0)
    (hlist : svc.list_transcripts video_id = ListTranscriptsResult.ok transcripts)
    (hfind : find_transcript transcripts (transcripts.map TranscriptInfo.language_code) = some ft)
    (hfetch : ft.fetchResult = GetTranscriptResult.ok segments) :
    fetch_transcript svc now input_string =
      { video_id := some video_id
        language := some ft.language
        transcript := some (pyJoin "\n" (segments.map Segment.text))
        url := some ("https://www.youtube.com/watch?v=" ++ video_id)
        date_fetched := some now
        error := none } ∧
    (∀ t, t ∈ segments → t.text ≠ "" → pyJoin "\n" (segments.map Segment.text) ≠ "") := by
  constructor
  · unfold fetch_transcript
    rw [hres]
    simp only [hne, if_false, hnf, hlist, hfind, hfetch, reduceCtorEq]
  · intro t ht htne
    exact pyJoin_ne_empty "\n" (segments.map Segment.text) t.text
      (List.mem_map_of_mem Segment.text ht) htne

/-- Witness for C3 amended at the concrete German-fallback service. -/
theorem fallback_success_record_fields_witness :
    fetch_transcript svcGermanFallback "2026-01-01T00:00:00" "dQw4w9WgXcQ" =
      { video_id := some "dQw4w9WgXcQ"
        language := some "German"
        transcript := some (pyJoin "\n" (([{ text := "hallo" }] : List Segment).map Segment.text))
        url := some ("https://www.youtube.com/watch?v=" ++ "dQw4w9WgXcQ")
        date_fetched := some "2026-01-01T00:00:00"
        error := none } ∧
    pyJoin "\n" (([{ text := "hallo" }] : List Segment).map Segment.text) ≠ "" := by
  have h := fallback_success_record_fields svcGermanFallback "2026-01-01T00:00:00" "dQw4w9WgXcQ"
    "dQw4w9WgXcQ" "no English transcript"
    [{ language := "German", language_code := "de", fetchResult := .ok [{ text := "hallo" }] }]
    { language := "German", language_code := "de", fetchResult := .ok [{ text := "hallo" }] }
    [{ text := "hallo" }] (by decide) (by decide) rfl rfl (by decide) rfl
  exact ⟨h.1, h.2 { text := "hallo" } (List.mem_singleton_self _) (by decide)⟩

/-- Counterexample to C9 as stated: a record whose video identifier begins
with a path separator is written outside the output directory, because
`os.path.join` lets an absolute second component replace the first. -/
theorem absolute_video_id_escapes_folder :
    saveFilename escapingRecord = "/x.json" ∧
    ("Transcripts/".data).isPrefixOf ("/x.json".data) = false := by decide

/-- C9 amended: `save_transcript_to_json` writes to
`os.path.join(output-dir, video_id + ".json")` — which is
`Transcripts/<video_id>.json` whenever the identifier does not begin with a
path separator, and `Transcripts/unknown.json` when the record has no
identifier (an identifier beginning with a separator escapes the output
directory); a write failure is swallowed and logged, never propagated, so
the function always returns normally. -/
theorem save_filename_and_never_raises (write : String → Except String Unit)
    (data : ResultRecord) :
    (∃ logs, save_transcript_to_json write data = Except.ok logs) ∧
    (data.video_id = none → saveFilename data = "Transcripts/unknown.json") ∧
    (∀ v, data.video_id = some v → v.data.head? ≠ some '/' →
      saveFilename data = "Transcripts/" ++ v ++ ".json") ∧
    (∀ e, write (saveFilename data) = Except.error e →
      save_transcript_to_json write data = Except.ok ["Error saving transcript to file: " ++ e]) := by
  refine ⟨?_, ?_, ?_, ?_⟩
  · unfold save_transcript_to_json
    cases hw : write (saveFilename data) with
    | ok u => exact ⟨[], rfl⟩
    | error e => exact ⟨["Error saving transcript to file: " ++ e], rfl⟩
  · intro h
    unfold saveFilename
    rw [h]
    decide
  · intro v hvid hv
    unfold saveFilename
    rw [hvid]
    show os_path_join TRANSCRIPTS_FOLDER (v ++ ".json") = "Transcripts/" ++ v ++ ".json"
    have hhead : (v ++ ".json").data.head? ≠ some '/' := by
      rw [String.data_append]
      cases hd : v.data with
      | nil => decide
      | cons c cs =>
        rw [hd] at hv
        simpa using hv
    unfold os_path_join
    rw [if_neg hhead, if_neg (by decide)]
    show "Transcripts" ++ "/" ++ (v ++ ".json") = "Transcripts/" ++ v ++ ".json"
    have h2 : "Transcripts" ++ "/" = "Transcripts/" := by decide
    rw [String.append_assoc, ← String.append_assoc, h2, String.append_assoc]
  · intro e he
    unfold save_transcript_to_json
    rw [he]

/-- Witness for C9 amended: the default filename, the ordinary filename and
the swallowed write failure, at concrete records. -/
theorem save_filename_and_never_raises_witness :
    saveFilename unknownRecord = "Transcripts/unknown.json" ∧
    saveFilename abcRecord = "Transcripts/" ++ "abc" ++ ".json" ∧
    save_transcript_to_json failingWrite unknownRecord =
      Except.ok ["Error saving transcript to file: " ++ "Permission denied"] :=
  ⟨(save_filename_and_never_raises failingWrite unknownRecord).2.1 rfl,
    (save_filename_and_never_raises failingWrite abcRecord).2.2.1 "abc" rfl (by decide),
    (save_filename_and_never_raises failingWrite unknownRecord).2.2.2 "Permission denied" rfl⟩
